import Mathlib

/-!
Verification of the airflow services supervisor (`airflow-services.py`).

The script is a host-local supervisor: it starts airflow services detached,
records their pids in `<AIRFLOW_HOME>/services-logs/<name>[-<host>].pid`
files, and later uses those records to report liveness or stop the services.

We embed the script shallowly.  The mutable outside world (the pid-record
files, the process table, everything printed, every subprocess invocation,
every signal sent, and elapsed time) is a `World` record threaded through
each operation.  External nondeterminism (whether a signaled process exits
within the wait, when a spawned daemon's pid file materializes, when the
celery runtime removes the worker record) is supplied by oracle parameters.

Time is modeled in deciseconds (the script sleeps in 0.1 s steps), so
`psutil.Process.wait(10)` has the bound `100` and the worker poll's
`range(100)` of 0.1 s sleeps also totals `100`.

Python exceptions (`assert`, `ValueError`, `psutil.TimeoutExpired`) are
modeled with `Except PyErr`; per the psutil documentation,
`psutil.Process.wait(timeout)` raises `TimeoutExpired` when the process is
still alive once the timeout elapses.
-/

/-- One entry of the process table: pid, process name as reported by
`psutil.Process.name()`, and the real uid of the owner. -/
structure Proc where
  pid : Nat
  name : String
  uid : Nat
deriving DecidableEq

/-- The outside world the script interacts with.
`files` is the contents of the pid-record files (path to recorded pid);
`procs` is the process table; `hostname` is `socket.gethostname()`;
`uid` is `os.getuid()`; `prints`, `calls`, `signals` log everything the
script printed, every `subprocess.check_call` argument vector, and every
pid sent SIGTERM; `clock` is elapsed time in deciseconds. -/
structure World where
  files : List (String × Nat)
  procs : List Proc
  hostname : String
  uid : Nat
  prints : List String
  calls : List (List String)
  signals : List Nat
  clock : Nat
deriving DecidableEq

/-- Python exceptions that the script can raise. -/
inductive PyErr where
  | assertionError
  | timeoutExpired
  | valueError (msg : String)
deriving DecidableEq

/-- The `hostname` argument of `pid_file_location` / `check_service`:
Python type `str | bool | None`. -/
inductive HostArg where
  | none
  | str (s : String)
  | bool (b : Bool)
deriving DecidableEq

/-- Python truthiness of a `str | bool | None` value. -/
def HostArg.truthy : HostArg → Bool
  | .none => false
  | .str s => s != ""
  | .bool b => b

/-- Python truthiness of an `int | None` value (`None` and `0` are falsy). -/
def truthyPid : Option Nat → Bool
  | Option.none => false
  | Option.some p => p != 0

/-- `SERVICES_DIR = AIRFLOW_HOME / "services-logs"`; the `AIRFLOW_HOME`
prefix is constant for a run and irrelevant to every claim, so we keep the
relative directory name. -/
def SERVICES_DIR : String := "services-logs"

/-- Read a record file: the pid it holds, or `none` when the file does not
exist (`pathlib.Path.is_file` false). -/
def lookupFile (files : List (String × Nat)) (path : String) : Option Nat :=
  (files.find? (fun e => e.1 == path)).map (fun e => e.2)

/-- `Path.unlink`: remove the file at `path`. -/
def eraseFile (files : List (String × Nat)) (path : String) : List (String × Nat) :=
  files.filter (fun e => e.1 != path)

/-- `open(path, "wt").write(str(pid))`: create or overwrite the file. -/
def setFile (files : List (String × Nat)) (path : String) (pid : Nat) : List (String × Nat) :=
  eraseFile files path ++ [(path, pid)]

/-- `psutil.pid_exists(pid)`: the pid is in the process table. -/
def pid_exists (w : World) (pid : Nat) : Bool :=
  w.procs.any (fun pr => pr.pid == pid)

/-- Is `p` a leading chunk of the char list (our own kernel-reducible
version of list prefix testing)? -/
def listIsHeadOf : List Char → List Char → Bool
  | [], _ => true
  | _ :: _, [] => false
  | a :: as, b :: bs => a == b && listIsHeadOf as bs

/-- Python `s.startswith(p)`. -/
def strStartsWith (s p : String) : Bool :=
  listIsHeadOf p.data s.data

/-- Python `s.removeprefix(p)`: drop `p` from the front when it is there. -/
def removeLeading (s p : String) : String :=
  if strStartsWith s p then ⟨s.data.drop p.data.length⟩ else s

/-- `service_name = "worker"; if worker_type != "default": service_name += "-" + worker_type`
(shared by `start_worker` and `stop_worker`). -/
def worker_service_name (worker_type : String) : String :=
  if worker_type != "default" then "worker" ++ "-" ++ worker_type else "worker"

/-- `pid_file_location(service_name, hostname)` — lines 42-52.  `HOSTNAME`
is the script's global (`socket.gethostname()`), passed explicitly.  Note
the source first builds `-<hostname>` for a string argument and then
overwrites the suffix with `-<HOSTNAME>` whenever the argument is truthy. -/
def pid_file_location (HOSTNAME : String) (service_name : String) (hostname : HostArg) : String :=
  let hostname_suffix :=
    match hostname with
    | .str s => "-" ++ s
    | _ => ""
  let hostname_suffix := if hostname.truthy then "-" ++ HOSTNAME else hostname_suffix
  SERVICES_DIR ++ "/" ++ service_name ++ hostname_suffix ++ ".pid"

/-- `check_service(service_name, hostname)` — lines 105-113.  Reads the
record; a live recorded pid is returned; a dead one is healed (log line,
unlink) and `None` is returned. -/
def check_service (w : World) (service_name : String) (hostname : HostArg) : World × Option Nat :=
  let pid_file := pid_file_location w.hostname service_name hostname
  match lookupFile w.files pid_file with
  | Option.some pid =>
    if pid_exists w pid then (w, Option.some pid)
    else
      ({w with files := eraseFile w.files pid_file,
               prints := w.prints ++ ["removing stale PID file"]}, Option.none)
  | Option.none => (w, Option.none)

/-- `start_service(service_name)` — lines 55-85.  `spawned` is the oracle
for the external daemonization: `some (p, t)` means the daemon got pid `p`
and its pid file materialized `t` deciseconds after the launch; the poll
only sees it when `t < 10`. -/
def start_service (w : World) (service_name : String) (spawned : Option (Nat × Nat)) :
    World × Except PyErr Unit :=
  let r0 := check_service w service_name .none
  if truthyPid r0.2 then (r0.1, Except.error PyErr.assertionError)
  else
    let w1 := r0.1
    let pid_file := pid_file_location w1.hostname service_name .none
    let w2 := {w1 with calls := w1.calls ++
      [["airflow", service_name, "--daemon", "--pid", pid_file,
        "--log-file", SERVICES_DIR ++ "/" ++ service_name ++ ".log",
        "--stdout", SERVICES_DIR ++ "/" ++ service_name ++ ".out",
        "--stderr", SERVICES_DIR ++ "/" ++ service_name ++ ".err"]]}
    match spawned with
    | Option.some (p, t) =>
      if t < 10 then
        ({w2 with procs := w2.procs ++ [⟨p, "airflow", w2.uid⟩],
                  files := setFile w2.files pid_file p,
                  clock := w2.clock + t}, Except.ok ())
      else
        ({w2 with clock := w2.clock + 10,
                  prints := w2.prints ++ ["start of " ++ service_name ++ " failed"]},
         Except.ok ())
    | Option.none =>
        ({w2 with clock := w2.clock + 10,
                  prints := w2.prints ++ ["start of " ++ service_name ++ " failed"]},
         Except.ok ())

/-- `start_dag_processor()` — lines 119-163.  The parent of the fork writes
the child pid to the record and returns it; the child (oracle pid
`childPid`) ignores SIGHUP, redirects its streams and execs
`airflow dag-processor`, becoming a process of the table. -/
def start_dag_processor (w : World) (childPid : Nat) : World × Except PyErr Nat :=
  let r0 := check_service w "dag-processor" .none
  if truthyPid r0.2 then (r0.1, Except.error PyErr.assertionError)
  else
    let w1 := r0.1
    let pid_file := pid_file_location w1.hostname "dag-processor" .none
    ({w1 with files := setFile w1.files pid_file childPid,
              procs := w1.procs ++ [⟨childPid, "airflow", w1.uid⟩]},
     Except.ok childPid)

/-- `find_api_server()` — lines 227-236: first process of the current user
whose name starts with `airflow api_server`. -/
def find_api_server (w : World) : Option Nat :=
  (w.procs.find? (fun pr =>
    pr.uid == w.uid && pr.name != "" && strStartsWith pr.name "airflow api_server")).map
    (fun pr => pr.pid)

/-- `start_api_server()` — lines 166-207.  The precondition is the process
scan (the api server writes no pid file of its own).  `appeared` is the
oracle for the launched daemon: `some (p, t)` means a process `p` named
`airflow api_server` shows up `t` deciseconds after the launch; the
work-around poll adopts the scanned pid into the record when `t < 10`,
otherwise the start is reported failed and a leftover record removed. -/
def start_api_server (w : World) (appeared : Option (Nat × Nat)) :
    World × Except PyErr (Option Nat) :=
  if truthyPid (find_api_server w) then (w, Except.error PyErr.assertionError)
  else
    let pid_file := pid_file_location w.hostname "api-server" .none
    let w2 := {w with calls := w.calls ++
      [["airflow", "api-server", "--daemon",
        "--access-logfile", SERVICES_DIR ++ "/api-server.access",
        "--pid", pid_file,
        "--log-file", SERVICES_DIR ++ "/api-server.log",
        "--stdout", SERVICES_DIR ++ "/api-server.out",
        "--stderr", SERVICES_DIR ++ "/api-server.err"]]}
    match appeared with
    | Option.some (p, t) =>
      if t < 10 then
        let w3 := {w2 with procs := w2.procs ++ [⟨p, "airflow api_server", w2.uid⟩],
                           clock := w2.clock + t}
        match find_api_server w3 with
        | Option.some sp =>
            ({w3 with files := setFile w3.files pid_file sp}, Except.ok (Option.some sp))
        | Option.none =>
            ({w3 with clock := w3.clock + 10,
                      prints := w3.prints ++ ["start of api-server failed"],
                      files := eraseFile w3.files pid_file}, Except.ok Option.none)
      else
        ({w2 with clock := w2.clock + 10,
                  prints := w2.prints ++ ["start of api-server failed"],
                  files := eraseFile w2.files pid_file}, Except.ok Option.none)
    | Option.none =>
        ({w2 with clock := w2.clock + 10,
                  prints := w2.prints ++ ["start of api-server failed"],
                  files := eraseFile w2.files pid_file}, Except.ok Option.none)

/-- `check_api_server()` — lines 239-248.  The record-based check first;
when it is falsy, the process scan, whose hit is adopted into the record. -/
def check_api_server (w : World) : World × Option Nat :=
  let r0 := check_service w "api-server" .none
  if truthyPid r0.2 then r0
  else
    match find_api_server r0.1 with
    | Option.some p =>
      if p != 0 then
        let adopted := setFile r0.1.files (pid_file_location r0.1.hostname "api-server" .none) p
        ({r0.1 with files := adopted}, Option.some p)
      else (r0.1, Option.some p)
    | Option.none => (r0.1, Option.none)

/-- `stop_service(service_name)` — lines 88-102.  `exitAfter` is the oracle
for the terminated process: it leaves the table `exitAfter` deciseconds
after SIGTERM.  `proc.wait(10)` returns when that happens within its 10 s
(100 ds) timeout and raises `psutil.TimeoutExpired` otherwise — an
exception this function does not catch. -/
def stop_service (w : World) (service_name : String) (exitAfter : Nat) :
    World × Except PyErr Unit :=
  let r0 := check_service w service_name .none
  match r0.2 with
  | Option.some pid =>
    if pid != 0 then
      let w2 := {r0.1 with signals := r0.1.signals ++ [pid]}
      if exitAfter ≤ 100 then
        let w3 := {w2 with procs := w2.procs.filter (fun pr => pr.pid != pid),
                           clock := w2.clock + exitAfter}
        if pid_exists w3 pid then
          ({w3 with prints := w3.prints ++ ["failed to end process"]}, Except.ok ())
        else
          let pid_file := pid_file_location w3.hostname service_name .none
          ({w3 with files := eraseFile w3.files pid_file}, Except.ok ())
      else
        ({w2 with clock := w2.clock + 100}, Except.error PyErr.timeoutExpired)
    else (r0.1, Except.ok ())
  | Option.none => (r0.1, Except.ok ())

/-- `stop_api_server()` — lines 210-224.  Same terminate/wait shape as
`stop_service`, but the record removal is reached even when the check was
falsy. -/
def stop_api_server (w : World) (exitAfter : Nat) : World × Except PyErr Unit :=
  let r0 := check_api_server w
  let unlink : World → World × Except PyErr Unit := fun v =>
    ({v with files := eraseFile v.files (pid_file_location v.hostname "api-server" .none)},
     Except.ok ())
  match r0.2 with
  | Option.some pid =>
    if pid != 0 then
      let w2 := {r0.1 with signals := r0.1.signals ++ [pid]}
      if exitAfter ≤ 100 then
        let w3 := {w2 with procs := w2.procs.filter (fun pr => pr.pid != pid),
                           clock := w2.clock + exitAfter}
        if pid_exists w3 pid then
          ({w3 with prints := w3.prints ++ ["failed to end process"]}, Except.ok ())
        else unlink w3
      else
        ({w2 with clock := w2.clock + 100}, Except.error PyErr.timeoutExpired)
    else unlink r0.1
  | Option.none => unlink r0.1

/-- `start_worker(worker_type)` — lines 254-313.  Note the precondition
assert checks `check_service(service_name)` without the host qualifier,
while the record the daemon writes is the host-qualified one.  `spawned`
is the oracle as in `start_service`; on success the function returns
`check_service(service_name, True)`. -/
def start_worker (w : World) (worker_type : String) (spawned : Option (Nat × Nat)) :
    World × Except PyErr (Option Nat) :=
  let service_name := worker_service_name worker_type
  let r0 := check_service w service_name .none
  if truthyPid r0.2 then (r0.1, Except.error PyErr.assertionError)
  else
    let w1 := r0.1
    let pid_file := pid_file_location w1.hostname service_name (.bool true)
    let base_args :=
      ["airflow", "celery", "worker", "--daemon", "--pid", pid_file,
       "--log-file", SERVICES_DIR ++ "/" ++ service_name ++ "-" ++ w1.hostname ++ ".log",
       "--stdout", SERVICES_DIR ++ "/" ++ service_name ++ "-" ++ w1.hostname ++ ".out",
       "--stderr", SERVICES_DIR ++ "/" ++ service_name ++ "-" ++ w1.hostname ++ ".err"]
    let launch : List String → World × Except PyErr (Option Nat) := fun args =>
      let w2 := {w1 with calls := w1.calls ++ [args]}
      match spawned with
      | Option.some (p, t) =>
        if t < 10 then
          let w3 := {w2 with procs := w2.procs ++ [⟨p, "airflow", w2.uid⟩],
                             files := setFile w2.files pid_file p,
                             clock := w2.clock + t}
          let r := check_service w3 service_name (.bool true)
          (r.1, Except.ok r.2)
        else
          ({w2 with clock := w2.clock + 10,
                    prints := w2.prints ++
                      ["start of " ++ service_name ++ "@" ++ w2.hostname ++ " failed"]},
           Except.ok Option.none)
      | Option.none =>
          ({w2 with clock := w2.clock + 10,
                    prints := w2.prints ++
                      ["start of " ++ service_name ++ "@" ++ w2.hostname ++ " failed"]},
           Except.ok Option.none)
    if worker_type == "default" then
      launch (base_args ++ ["--celery-hostname", w1.hostname])
    else if worker_type == "gpu" then
      launch (base_args ++ ["--queues", "gpu", "--celery-hostname",
        w1.hostname ++ "-gpu", "--concurrency", "1"])
    else
      (w1, Except.error (PyErr.valueError ("unexpected worker type " ++ worker_type)))

/-- `stop_worker(worker_type)` — lines 316-344.  The graceful stop is the
runtime's own `airflow celery stop --pid <record>` subcommand, followed by
a `range(100)` poll of 0.1 s sleeps for the record to disappear.
`removedAt` is the oracle: the iteration at which the runtime has removed
the record (`none`: not within the poll's horizon). -/
def stop_worker (w : World) (worker_type : String) (removedAt : Option Nat) : World :=
  let service_name := worker_service_name worker_type
  let r0 := check_service w service_name (.bool true)
  match r0.2 with
  | Option.some pid =>
    if pid != 0 then
      let w1 := r0.1
      let pid_file := pid_file_location w1.hostname service_name (.bool true)
      let w2 := {w1 with calls := w1.calls ++
        [["airflow", "celery", "stop", "--pid", pid_file]]}
      match removedAt with
      | Option.some k =>
        if k < 100 then
          {w2 with files := eraseFile w2.files pid_file,
                   procs := w2.procs.filter (fun pr => pr.pid != pid),
                   clock := w2.clock + k}
        else
          {w2 with clock := w2.clock + 100,
                   prints := w2.prints ++
                     ["start of " ++ service_name ++ "@" ++ w2.hostname ++ " failed"]}
      | Option.none =>
          {w2 with clock := w2.clock + 100,
                   prints := w2.prints ++
                     ["start of " ++ service_name ++ "@" ++ w2.hostname ++ " failed"]}
    else r0.1
  | Option.none => r0.1

/-- The line `report_status` prints for one identity. -/
def report_line (service_name : String) (pid : Option Nat) : String :=
  match pid with
  | Option.some p =>
    if p != 0 then service_name ++ " up (pid=" ++ toString p ++ ")"
    else service_name ++ " down"
  | Option.none => service_name ++ " down"

/-- The inner `report_status` of `check_status` — lines 351-355. -/
def report_status (w : World) (service_name : String) (pid : Option Nat) : World :=
  {w with prints := w.prints ++ [report_line service_name pid]}

/-- One `report_status(label, check(...))` statement of `check_status`. -/
def status_block (label : String) (r : World × Option Nat) : World :=
  report_status r.1 label r.2

/-- `check_status(_)` — lines 350-363: one up/down line per known identity,
the workers host-qualified. -/
def check_status (w : World) : World :=
  let w1 := status_block "api-server" (check_api_server w)
  let w2 := status_block "scheduler" (check_service w1 "scheduler" .none)
  let w3 := status_block "triggerer" (check_service w2 "triggerer" .none)
  let w4 := status_block "dag-processor" (check_service w3 "dag-processor" .none)
  let w5 := status_block ("worker@" ++ w.hostname) (check_service w4 "worker" (.bool true))
  status_block ("worker-gpu@" ++ w.hostname) (check_service w5 "worker-gpu" (.bool true))

/-- The fallback service list of `start` and `stop` for an empty argument
list — lines 369 and 392. -/
def DEFAULT_SERVICES : List String :=
  ["api-server", "scheduler", "triggerer", "dag-processor"]

/-- The per-service operations the `start`/`stop` commands dispatch to. -/
inductive Op where
  | startApiServer
  | startSvc (service_name : String)
  | startDagProcessor
  | startWorkerOp (worker_type : String)
  | stopApiServer
  | stopSvc (service_name : String)
  | stopWorkerOp (worker_type : String)
deriving DecidableEq

/-- The worker type the dispatch loop passes for a `worker[-variant]`
token: `service.removeprefix("worker").removeprefix("-")`, with the empty
result selecting the default. -/
def worker_type_of (service : String) : String :=
  let wt := removeLeading (removeLeading service "worker") "-"
  if wt == "" then "default" else wt

/-- `stop(args)` — lines 366-386: the operations performed, in order. -/
def stop_ops (services : List String) : List Op :=
  let services := if services.isEmpty then DEFAULT_SERVICES else services
  (if services.contains "api-server" then [Op.stopApiServer] else []) ++
  (if services.contains "scheduler" then [Op.stopSvc "scheduler"] else []) ++
  (if services.contains "triggerer" then [Op.stopSvc "triggerer"] else []) ++
  (if services.contains "dag-processor" then [Op.stopSvc "dag-processor"] else []) ++
  services.filterMap (fun s =>
    if strStartsWith s "worker" then Option.some (Op.stopWorkerOp (worker_type_of s))
    else Option.none)

/-- `start(args)` — lines 389-409: the operations performed, in order. -/
def start_ops (services : List String) : List Op :=
  let services := if services.isEmpty then DEFAULT_SERVICES else services
  (if services.contains "api-server" then [Op.startApiServer] else []) ++
  (if services.contains "scheduler" then [Op.startSvc "scheduler"] else []) ++
  (if services.contains "triggerer" then [Op.startSvc "triggerer"] else []) ++
  (if services.contains "dag-processor" then [Op.startDagProcessor] else []) ++
  services.filterMap (fun s =>
    if strStartsWith s "worker" then Option.some (Op.startWorkerOp (worker_type_of s))
    else Option.none)

/-- The stale-cleanup log line of `check_service`. -/
def STALE_MSG : String := "removing stale PID file"

/-- The printed lines that are not stale-cleanup notices. -/
def nonStale (l : List String) : List String :=
  l.filter (fun s => s != STALE_MSG)

/-- The record paths of the six identities `check_status` inspects. -/
def status_record_paths (w : World) : List String :=
  [pid_file_location w.hostname "api-server" .none,
   pid_file_location w.hostname "scheduler" .none,
   pid_file_location w.hostname "triggerer" .none,
   pid_file_location w.hostname "dag-processor" .none,
   pid_file_location w.hostname "worker" (.bool true),
   pid_file_location w.hostname "worker-gpu" (.bool true)]

/-! ### Concrete worlds used as witnesses and counterexamples -/

/-- A world with a stale scheduler record: the recorded pid 9 is dead. -/
def wStaleRec : World :=
  ⟨[("services-logs/scheduler.pid", 9)], [], "h", 0, [], [], [], 0⟩

/-- A world on host `hq` where every identity is running: scheduler and
dag-processor under pid 5, and the api-server record and the host-qualified
worker record under pid 7.  Process 7's scanned name (`bash`) does not
match the api-server scan pattern. -/
def wAllUp : World :=
  ⟨[("services-logs/scheduler.pid", 5), ("services-logs/dag-processor.pid", 5),
    ("services-logs/api-server.pid", 7), ("services-logs/worker-hq.pid", 7)],
   [⟨5, "airflow", 0⟩, ⟨7, "bash", 0⟩], "hq", 0, [], [], [], 0⟩

/-- A world where the scheduler and the api-server records point at the
live process 7 (which will ignore SIGTERM in the C3 scenario). -/
def wStubborn : World :=
  ⟨[("services-logs/scheduler.pid", 7), ("services-logs/api-server.pid", 7)],
   [⟨7, "airflow", 0⟩], "h", 0, [], [], [], 0⟩

/-- A world with a live default worker on host `h` (record at the
host-qualified path, process 7 alive). -/
def wWorkerUp : World :=
  ⟨[("services-logs/worker-h.pid", 7)], [⟨7, "celeryd", 0⟩], "h", 0, [], [], [], 0⟩

/-- A world with no records but a running api-server process 42 owned by
the current user. -/
def wScanOnly : World :=
  ⟨[], [⟨42, "airflow api_server: master", 0⟩], "h", 0, [], [], [], 0⟩

/-- A world with a stale record at the unqualified path `worker-foo.pid`
(pid 9 is dead) and nothing else. -/
def wStaleFoo : World :=
  ⟨[("services-logs/worker-foo.pid", 9)], [], "h", 0, [], [], [], 0⟩

/-- The empty world: no records, no processes. -/
def wEmpty : World :=
  ⟨[], [], "h", 0, [], [], [], 0⟩

/-- Does `stop_worker`'s bounded poll observe the record's removal: only
when the runtime removes it before the 100th 0.1 s check. -/
def poll_sees_removal (removedAt : Option Nat) : Bool :=
  match removedAt with
  | Option.some k => k < 100
  | Option.none => false

/-- How one step of the status report may change the world: the process
table, the subprocess log, the signal log, the host name and the uid are
untouched; record files outside `paths` are untouched; and the printed
output grows by exactly `k` lines besides stale-cleanup notices. -/
structure StatusStep (paths : List String) (v v' : World) (k : Nat) : Prop where
  procs_eq : v'.procs = v.procs
  calls_eq : v'.calls = v.calls
  signals_eq : v'.signals = v.signals
  hostname_eq : v'.hostname = v.hostname
  uid_eq : v'.uid = v.uid
  files_frame : ∀ q, q ∉ paths → lookupFile v'.files q = lookupFile v.files q
  prints_shape : ∃ δ, v'.prints = v.prints ++ δ ∧ (nonStale δ).length = k

/-! ### Record-store lemmas -/

theorem lookupFile_eraseFile_self (fs : List (String × Nat)) (p : String) :
    lookupFile (eraseFile fs p) p = Option.none := by
  unfold lookupFile eraseFile
  rw [Option.map_eq_none', List.find?_eq_none]
  intro x hx
  have h2 := (List.mem_filter.mp hx).2
  rw [bne_iff_ne] at h2
  simp [h2]

theorem lookupFile_eraseFile_ne (fs : List (String × Nat)) (p q : String) (h : q ≠ p) :
    lookupFile (eraseFile fs p) q = lookupFile fs q := by
  unfold lookupFile eraseFile
  induction fs with
  | nil => rfl
  | cons e t ih =>
    by_cases hq : e.1 = q
    · have hep : (e.1 != p) = true := by rw [bne_iff_ne, hq]; exact h
      rw [List.filter_cons, if_pos hep]
      rw [@List.find?_cons_of_pos _ (fun x => x.1 == q) e (List.filter (fun x => x.1 != p) t)
            (by simp [hq]),
          @List.find?_cons_of_pos _ (fun x => x.1 == q) e t (by simp [hq])]
    · have hq2 : ¬ ((fun x : String × Nat => x.1 == q) e) = true := by simp [hq]
      by_cases hep : e.1 = p
      · rw [List.filter_cons, if_neg (by simp [hep])]
        rw [@List.find?_cons_of_neg _ (fun x => x.1 == q) e t hq2]
        exact ih
      · rw [List.filter_cons, if_pos (by rw [bne_iff_ne]; exact hep)]
        rw [@List.find?_cons_of_neg _ (fun x => x.1 == q) e (List.filter (fun x => x.1 != p) t)
              hq2,
            @List.find?_cons_of_neg _ (fun x => x.1 == q) e t hq2]
        exact ih

theorem eraseFile_eq_of_lookup_none (fs : List (String × Nat)) (p : String)
    (h : lookupFile fs p = Option.none) : eraseFile fs p = fs := by
  unfold lookupFile at h
  rw [Option.map_eq_none', List.find?_eq_none] at h
  unfold eraseFile
  rw [List.filter_eq_self]
  intro a ha
  rw [bne_iff_ne]
  intro he
  exact (h a ha) (by simp [he])

theorem lookupFile_append (fs1 fs2 : List (String × Nat)) (q : String) :
    lookupFile (fs1 ++ fs2) q = (lookupFile fs1 q).or (lookupFile fs2 q) := by
  unfold lookupFile
  rw [List.find?_append]
  cases List.find? (fun e => e.1 == q) fs1 <;> simp

theorem lookupFile_setFile_self (fs : List (String × Nat)) (p : String) (v : Nat) :
    lookupFile (setFile fs p v) p = Option.some v := by
  unfold setFile
  rw [lookupFile_append, lookupFile_eraseFile_self]
  simp [lookupFile]

theorem lookupFile_setFile_ne (fs : List (String × Nat)) (p q : String) (v : Nat)
    (h : q ≠ p) : lookupFile (setFile fs p v) q = lookupFile fs q := by
  unfold setFile
  rw [lookupFile_append, lookupFile_eraseFile_ne fs p q h]
  have hpq : ((p == q) : Bool) = false := by
    rw [beq_eq_false_iff_ne]
    exact fun hh => h hh.symm
  have hsingle : lookupFile [(p, v)] q = Option.none := by
    unfold lookupFile
    rw [List.find?_cons_of_neg _ (by simp [hpq])]
    rfl
  rw [hsingle]
  cases lookupFile fs q <;> rfl

/-! ### C4, C5: the record-path function -/

/-- C4: for every base service name, two distinct local host names give two
distinct host-qualified record file paths, so host-qualified identities on
two hosts have independent, non-colliding records. -/
theorem pid_file_location_host_injective (n h1 h2 : String) (hne : h1 ≠ h2) :
    pid_file_location h1 n (.bool true) ≠ pid_file_location h2 n (.bool true) := by
  unfold pid_file_location HostArg.truthy
  simp only [if_true]
  intro heq
  apply hne
  have hd := congrArg String.data heq
  simp only [String.data_append, List.append_assoc] at hd
  have hd1 := List.append_cancel_left hd
  have hd2 := List.append_cancel_left hd1
  have hd3 := List.append_cancel_left hd2
  have hd4 := List.append_cancel_left hd3
  exact String.ext (List.append_cancel_right hd4)

/-- Witness for C4 at the concrete hosts `h1` and `h2`. -/
theorem pid_file_location_host_injective_witness :
    ("h1" : String) ≠ "h2" ∧
    pid_file_location "h1" "worker" (.bool true) ≠ pid_file_location "h2" "worker" (.bool true) :=
  ⟨by decide, pid_file_location_host_injective "worker" "h1" "h2" (by decide)⟩

/-- C5: a non-empty string passed as the `hostname` argument is truthy, so
the suffix it first selects is overwritten with the local host name: the
resulting path equals the `hostname=True` path and does not depend on the
passed string. -/
theorem pid_file_location_str_truthy_eq_true (HOSTNAME n s : String) (hs : s ≠ "") :
    pid_file_location HOSTNAME n (.str s) = pid_file_location HOSTNAME n (.bool true) := by
  have ht : (s != "") = true := bne_iff_ne.mpr hs
  simp [pid_file_location, HostArg.truthy, ht]

/-- Witness for C5 at a concrete non-empty qualifier. -/
theorem pid_file_location_str_truthy_eq_true_witness :
    ("other-host" : String) ≠ "" ∧
    pid_file_location "h" "scheduler" (.str "other-host") =
      pid_file_location "h" "scheduler" (.bool true) :=
  ⟨by decide, pid_file_location_str_truthy_eq_true "h" "scheduler" "other-host" (by decide)⟩

/-! ### C1: staleness healing is a one-shot, idempotent cleanup -/

/-- How `check_service` behaves on a stale record: it heals exactly once. -/
theorem check_service_stale_eq (w : World) (n : String) (h : HostArg) (pid : Nat)
    (hrec : lookupFile w.files (pid_file_location w.hostname n h) = Option.some pid)
    (hdead : pid_exists w pid = false) :
    check_service w n h =
      ({w with files := eraseFile w.files (pid_file_location w.hostname n h),
               prints := w.prints ++ ["removing stale PID file"]}, Option.none) := by
  unfold check_service
  simp only [hrec, hdead, Bool.false_eq_true, if_false]

/-- C1: a `check` on an identity whose record holds a dead pid removes the
record and returns absent; an immediate second `check` also returns absent
and leaves the world exactly as it was (no further removal). -/
theorem check_stale_heals_idempotently (w : World) (n : String) (h : HostArg) (pid : Nat)
    (hrec : lookupFile w.files (pid_file_location w.hostname n h) = Option.some pid)
    (hdead : pid_exists w pid = false) :
    (check_service w n h).2 = Option.none ∧
    lookupFile (check_service w n h).1.files (pid_file_location w.hostname n h) = Option.none ∧
    check_service (check_service w n h).1 n h = ((check_service w n h).1, Option.none) := by
  have hstep := check_service_stale_eq w n h pid hrec hdead
  refine ⟨by rw [hstep], ?_, ?_⟩
  · rw [hstep]
    exact lookupFile_eraseFile_self w.files _
  · rw [hstep]
    unfold check_service
    simp only [lookupFile_eraseFile_self]

/-- Witness for C1: the stale scheduler record of `wStaleRec`. -/
theorem check_stale_heals_idempotently_witness :
    lookupFile wStaleRec.files (pid_file_location wStaleRec.hostname "scheduler" .none) =
      Option.some 9 ∧
    pid_exists wStaleRec 9 = false ∧
    ((check_service wStaleRec "scheduler" .none).2 = Option.none ∧
     lookupFile (check_service wStaleRec "scheduler" .none).1.files
       (pid_file_location wStaleRec.hostname "scheduler" .none) = Option.none ∧
     check_service (check_service wStaleRec "scheduler" .none).1 "scheduler" .none =
       ((check_service wStaleRec "scheduler" .none).1, Option.none)) :=
  ⟨by decide, by decide,
   check_stale_heals_idempotently wStaleRec "scheduler" .none 9 (by decide) (by decide)⟩

/-! ### C2: the start preconditions, evaluated on a world where every
identity is up -/

/-- C2: evaluation of every start path on `wAllUp`, where `check` returns a
live pid for each identity.  The generic path and the dag-processor path
fail fast with the `assert`.  But `start_api_server`'s precondition is the
process scan, not `check`: with the record pid 7 live yet scan-invisible it
proceeds and spawns (one subprocess call, adopting pid 9).  And
`start_worker`'s `assert` checks the unqualified `worker.pid` record — a
path never written for workers — so despite `check_service("worker", True)`
returning the live pid 7 it proceeds, spawns a second worker, and the
host-qualified record is clobbered with the new pid 9 while process 7 is
still in the table. -/
theorem start_precondition_paths_eval :
    ((check_service wAllUp "scheduler" .none).2 = Option.some 5 ∧
     start_service wAllUp "scheduler" Option.none = (wAllUp, Except.error PyErr.assertionError)) ∧
    ((check_service wAllUp "dag-processor" .none).2 = Option.some 5 ∧
     start_dag_processor wAllUp 9 = (wAllUp, Except.error PyErr.assertionError)) ∧
    ((check_api_server wAllUp).2 = Option.some 7 ∧
     (start_api_server wAllUp (Option.some (9, 0))).2 = Except.ok (Option.some 9) ∧
     (start_api_server wAllUp (Option.some (9, 0))).1.calls.length = 1) ∧
    ((check_service wAllUp "worker" (.bool true)).2 = Option.some 7 ∧
     (start_worker wAllUp "default" (Option.some (9, 0))).2 = Except.ok (Option.some 9) ∧
     (start_worker wAllUp "default" (Option.some (9, 0))).1.calls.length = 1 ∧
     (start_worker wAllUp "default" (Option.some (9, 0))).1.procs =
       [⟨5, "airflow", 0⟩, ⟨7, "bash", 0⟩, ⟨9, "airflow", 0⟩] ∧
     lookupFile (start_worker wAllUp "default" (Option.some (9, 0))).1.files
       "services-logs/worker-hq.pid" = Option.some 9) :=
  ⟨⟨by decide, rfl⟩, ⟨by decide, rfl⟩, ⟨by decide, rfl, by decide⟩,
   ⟨by decide, rfl, by decide, by decide, by decide⟩⟩

/-! ### C3: stop on a process that survives the wait timeout -/

/-- C3: evaluation of `stop_service` and `stop_api_server` on `wStubborn`,
whose tracked process 7 ignores SIGTERM (`exitAfter = 101 > 100`).  The
uncaught `psutil.TimeoutExpired` of `proc.wait(10)` aborts the stop exactly
at the 10 s timeout: nothing is printed (the `failed to end process` report
is never reached) and the record is left intact, still holding pid 7. -/
theorem stop_timeout_raises_eval :
    stop_service wStubborn "scheduler" 101 =
      ({wStubborn with signals := [7], clock := 100}, Except.error PyErr.timeoutExpired) ∧
    lookupFile (stop_service wStubborn "scheduler" 101).1.files
      "services-logs/scheduler.pid" = Option.some 7 ∧
    (stop_service wStubborn "scheduler" 101).1.prints = [] ∧
    stop_api_server wStubborn 101 =
      ({wStubborn with signals := [7], clock := 100}, Except.error PyErr.timeoutExpired) ∧
    lookupFile (stop_api_server wStubborn 101).1.files
      "services-logs/api-server.pid" = Option.some 7 ∧
    (stop_api_server wStubborn 101).1.prints = [] :=
  ⟨rfl, by decide, by decide, rfl, by decide, by decide⟩

/-! ### C8: the default identity set of `start` and `stop` -/

/-- C8: with an empty identity list, `stop` and `start` operate on exactly
the four host-singleton services, in order, and on no per-host worker
identity. -/
theorem empty_services_default_to_host_singletons :
    stop_ops [] = [Op.stopApiServer, Op.stopSvc "scheduler", Op.stopSvc "triggerer",
      Op.stopSvc "dag-processor"] ∧
    start_ops [] = [Op.startApiServer, Op.startSvc "scheduler", Op.startSvc "triggerer",
      Op.startDagProcessor] :=
  ⟨by decide, by decide⟩

/-! ### Behaviour lemmas for the checkers -/

theorem check_service_of_absent (w : World) (n : String) (h : HostArg)
    (habs : lookupFile w.files (pid_file_location w.hostname n h) = Option.none) :
    check_service w n h = (w, Option.none) := by
  unfold check_service
  simp only [habs]

theorem check_service_live_eq (w : World) (n : String) (h : HostArg) (pid : Nat)
    (hlook : lookupFile w.files (pid_file_location w.hostname n h) = Option.some pid)
    (hlive : pid_exists w pid = true) :
    check_service w n h = (w, Option.some pid) := by
  unfold check_service
  simp only [hlook, hlive, if_true]

theorem check_service_cases (w : World) (n : String) (h : HostArg) :
    check_service w n h = (w, Option.none) ∨
    (∃ pid, check_service w n h = (w, Option.some pid)) ∨
    check_service w n h =
      ({w with files := eraseFile w.files (pid_file_location w.hostname n h),
               prints := w.prints ++ ["removing stale PID file"]}, Option.none) := by
  cases hl : lookupFile w.files (pid_file_location w.hostname n h) with
  | none => exact Or.inl (check_service_of_absent w n h hl)
  | some pid =>
    by_cases hx : pid_exists w pid
    · exact Or.inr (Or.inl ⟨pid, check_service_live_eq w n h pid hl hx⟩)
    · exact Or.inr (Or.inr (check_service_stale_eq w n h pid hl (by simpa using hx)))

theorem check_service_hostname (w : World) (n : String) (h : HostArg) :
    (check_service w n h).1.hostname = w.hostname := by
  rcases check_service_cases w n h with hc | ⟨p, hc⟩ | hc <;> rw [hc]

theorem check_service_procs (w : World) (n : String) (h : HostArg) :
    (check_service w n h).1.procs = w.procs := by
  rcases check_service_cases w n h with hc | ⟨p, hc⟩ | hc <;> rw [hc]

theorem check_service_calls (w : World) (n : String) (h : HostArg) :
    (check_service w n h).1.calls = w.calls := by
  rcases check_service_cases w n h with hc | ⟨p, hc⟩ | hc <;> rw [hc]

theorem check_service_signals (w : World) (n : String) (h : HostArg) :
    (check_service w n h).1.signals = w.signals := by
  rcases check_service_cases w n h with hc | ⟨p, hc⟩ | hc <;> rw [hc]

theorem check_service_uid (w : World) (n : String) (h : HostArg) :
    (check_service w n h).1.uid = w.uid := by
  rcases check_service_cases w n h with hc | ⟨p, hc⟩ | hc <;> rw [hc]

theorem check_service_prints_shape (w : World) (n : String) (h : HostArg) :
    ∃ δ, (check_service w n h).1.prints = w.prints ++ δ ∧ nonStale δ = [] := by
  rcases check_service_cases w n h with hc | ⟨p, hc⟩ | hc <;> rw [hc]
  · exact ⟨[], by simp, rfl⟩
  · exact ⟨[], by simp, rfl⟩
  · exact ⟨["removing stale PID file"], rfl, by decide⟩

theorem check_service_files_other (w : World) (n : String) (h : HostArg) (q : String)
    (hq : q ≠ pid_file_location w.hostname n h) :
    lookupFile (check_service w n h).1.files q = lookupFile w.files q := by
  rcases check_service_cases w n h with hc | ⟨p, hc⟩ | hc <;> rw [hc]
  exact lookupFile_eraseFile_ne w.files _ q hq

theorem check_api_server_of_absent (w : World)
    (habs : lookupFile w.files (pid_file_location w.hostname "api-server" .none) = Option.none)
    (hfind : find_api_server w = Option.none) :
    check_api_server w = (w, Option.none) := by
  unfold check_api_server
  simp [check_service_of_absent w "api-server" HostArg.none habs, truthyPid, hfind]

/-! ### C6: stopping an absent identity is a no-op -/

/-- C6: for an identity with no record present (and, for the api server,
no scan-visible process either), `stop` is a pure no-op: the world is
returned unchanged — no signal sent, no subcommand invoked, no file or log
touched.  This covers the generic path, the api-server path, and every
worker type. -/
theorem stop_absent_identity_noop (w : World) (n wt : String)
    (exitAfter1 exitAfter2 : Nat) (removedAt : Option Nat)
    (hgen : lookupFile w.files (pid_file_location w.hostname n .none) = Option.none)
    (hapi : lookupFile w.files (pid_file_location w.hostname "api-server" .none) = Option.none)
    (hfind : find_api_server w = Option.none)
    (hwork : lookupFile w.files
      (pid_file_location w.hostname (worker_service_name wt) (.bool true)) = Option.none) :
    stop_service w n exitAfter1 = (w, Except.ok ()) ∧
    stop_api_server w exitAfter2 = (w, Except.ok ()) ∧
    stop_worker w wt removedAt = w := by
  refine ⟨?_, ?_, ?_⟩
  · unfold stop_service
    simp [check_service_of_absent w n HostArg.none hgen]
  · unfold stop_api_server
    simp [check_api_server_of_absent w hapi hfind,
      eraseFile_eq_of_lookup_none w.files _ hapi]
  · unfold stop_worker
    simp [check_service_of_absent w (worker_service_name wt) (HostArg.bool true) hwork]

/-- Witness for C6: the empty world. -/
theorem stop_absent_identity_noop_witness :
    (lookupFile wEmpty.files (pid_file_location wEmpty.hostname "scheduler" .none) =
       Option.none ∧
     lookupFile wEmpty.files (pid_file_location wEmpty.hostname "api-server" .none) =
       Option.none ∧
     find_api_server wEmpty = Option.none ∧
     lookupFile wEmpty.files
       (pid_file_location wEmpty.hostname (worker_service_name "default") (.bool true)) =
       Option.none) ∧
    (stop_service wEmpty "scheduler" 0 = (wEmpty, Except.ok ()) ∧
     stop_api_server wEmpty 0 = (wEmpty, Except.ok ()) ∧
     stop_worker wEmpty "default" Option.none = wEmpty) :=
  ⟨⟨by decide, by decide, by decide, by decide⟩,
   stop_absent_identity_noop wEmpty "scheduler" "default" 0 0 Option.none
     (by decide) (by decide) (by decide) (by decide)⟩

/-! ### C7: the worker stop variant and its poll bound -/

/-- Counterexample for C7's timeout description.  The claimed bound — on
the order of 10 seconds times 10 retries, i.e. about 1000 deciseconds — is
not the code's: the poll is `range(100)` checks with 0.1 s sleeps, 100
deciseconds in total.  With the runtime removing the record 150 ds (15 s)
after the stop subcommand — well inside the claimed ~100 s window — the
code has already given up at 100 ds: it reports failure (with its
`start of ... failed` wording) and the record is still present. -/
theorem stop_worker_poll_is_ten_seconds_counterexample :
    150 < 1000 ∧
    (stop_worker wWorkerUp "default" (Option.some 150)).prints =
      ["start of worker@h failed"] ∧
    lookupFile (stop_worker wWorkerUp "default" (Option.some 150)).files
      "services-logs/worker-h.pid" = Option.some 7 ∧
    (stop_worker wWorkerUp "default" (Option.some 150)).clock = 100 :=
  ⟨by decide, by decide, by decide, by decide⟩

/-- C7 (amended): for a tracked live worker, `stop_worker` replaces the
signal step by invoking `airflow celery stop --pid <record path>` against
the worker's own record path, then polls for the record's removal in a
bounded loop of 100 retries at 0.1 s intervals — 10 seconds in total, the
same order as the generic stop timeout, not 10 s × 10 retries.  The poll
always terminates within that 100 ds bound; when it sees the removal it
returns silently, and otherwise it reports failure with the record still
present. -/
theorem stop_worker_bounded_poll (w : World) (wt : String) (removedAt : Option Nat) (pid : Nat)
    (hlook : lookupFile w.files
      (pid_file_location w.hostname (worker_service_name wt) (.bool true)) = Option.some pid)
    (hlive : pid_exists w pid = true) (hpid : pid ≠ 0) :
    (stop_worker w wt removedAt).calls =
      w.calls ++ [["airflow", "celery", "stop", "--pid",
        pid_file_location w.hostname (worker_service_name wt) (.bool true)]] ∧
    (stop_worker w wt removedAt).clock ≤ w.clock + 100 ∧
    (poll_sees_removal removedAt = true →
      lookupFile (stop_worker w wt removedAt).files
        (pid_file_location w.hostname (worker_service_name wt) (.bool true)) = Option.none ∧
      (stop_worker w wt removedAt).prints = w.prints) ∧
    (poll_sees_removal removedAt = false →
      lookupFile (stop_worker w wt removedAt).files
        (pid_file_location w.hostname (worker_service_name wt) (.bool true)) =
        Option.some pid ∧
      (stop_worker w wt removedAt).prints = w.prints ++
        ["start of " ++ worker_service_name wt ++ "@" ++ w.hostname ++ " failed"] ∧
      (stop_worker w wt removedAt).clock = w.clock + 100) := by
  have hcheck := check_service_live_eq w (worker_service_name wt) (.bool true) pid hlook hlive
  have hb : (pid != 0) = true := bne_iff_ne.mpr hpid
  unfold stop_worker
  simp only [hcheck, hb, if_true]
  cases removedAt with
  | none =>
    refine ⟨rfl, by simp, ?_, ?_⟩
    · intro hsees
      exact absurd hsees (by simp [poll_sees_removal])
    · intro _
      exact ⟨hlook, rfl, rfl⟩
  | some k =>
    by_cases hk : k < 100
    · have hsees : poll_sees_removal (Option.some k) = true := by
        simp [poll_sees_removal, hk]
      simp only [hk, if_true, hsees]
      refine ⟨trivial, by omega, fun _ => ⟨lookupFile_eraseFile_self _ _, trivial⟩, ?_⟩
      intro hff
      simp at hff
    · have hsees : poll_sees_removal (Option.some k) = false := by
        simp [poll_sees_removal, hk]
      simp only [hk, if_false, hsees]
      refine ⟨trivial, by omega, ?_, fun _ => ⟨hlook, trivial, trivial⟩⟩
      intro htt
      simp at htt

/-- Witness for C7's amended theorem: the runtime removes the worker
record immediately (iteration 0). -/
theorem stop_worker_bounded_poll_witness :
    (lookupFile wWorkerUp.files
       (pid_file_location wWorkerUp.hostname (worker_service_name "default") (.bool true)) =
       Option.some 7 ∧
     pid_exists wWorkerUp 7 = true ∧ (7 : Nat) ≠ 0) ∧
    ((stop_worker wWorkerUp "default" (Option.some 0)).calls =
       wWorkerUp.calls ++ [["airflow", "celery", "stop", "--pid",
         pid_file_location wWorkerUp.hostname (worker_service_name "default") (.bool true)]] ∧
     (stop_worker wWorkerUp "default" (Option.some 0)).clock ≤ wWorkerUp.clock + 100 ∧
     (poll_sees_removal (Option.some 0) = true →
       lookupFile (stop_worker wWorkerUp "default" (Option.some 0)).files
         (pid_file_location wWorkerUp.hostname (worker_service_name "default") (.bool true)) =
         Option.none ∧
       (stop_worker wWorkerUp "default" (Option.some 0)).prints = wWorkerUp.prints) ∧
     (poll_sees_removal (Option.some 0) = false →
       lookupFile (stop_worker wWorkerUp "default" (Option.some 0)).files
         (pid_file_location wWorkerUp.hostname (worker_service_name "default") (.bool true)) =
         Option.some 7 ∧
       (stop_worker wWorkerUp "default" (Option.some 0)).prints = wWorkerUp.prints ++
         ["start of " ++ worker_service_name "default" ++ "@" ++ wWorkerUp.hostname ++
          " failed"] ∧
       (stop_worker wWorkerUp "default" (Option.some 0)).clock = wWorkerUp.clock + 100)) :=
  ⟨⟨by decide, by decide, by decide⟩,
   stop_worker_bounded_poll wWorkerUp "default" (Option.some 0) 7
     (by decide) (by decide) (by decide)⟩

/-! ### C10: unknown worker types -/

/-- Counterexample for C10's frame clause.  On `wStaleFoo` — which holds a
stale record at the unqualified path `worker-foo.pid` — the call
`start_worker("foo")` does raise the `ValueError` before any subprocess or
record write, but it does NOT leave all state unchanged: the precondition
`assert not check_service(service_name)` runs first and heals the stale
record away (with its log line). -/
theorem start_worker_value_error_state_change_counterexample :
    (start_worker wStaleFoo "foo" Option.none).2 =
      Except.error (PyErr.valueError "unexpected worker type foo") ∧
    wStaleFoo.files = [("services-logs/worker-foo.pid", 9)] ∧
    (start_worker wStaleFoo "foo" Option.none).1.files = [] ∧
    (start_worker wStaleFoo "foo" Option.none).1.files ≠ wStaleFoo.files ∧
    (start_worker wStaleFoo "foo" Option.none).1.prints = ["removing stale PID file"] :=
  ⟨rfl, by decide, by decide, by decide, by decide⟩

/-- C10 (amended): for every worker type other than `default` and `gpu`,
once the precondition check comes back falsy, `start_worker` raises
`ValueError("unexpected worker type ...")` before invoking the external
program or writing any record: the resulting world is exactly the
post-precondition-check world (so the only possible state change is the
stale healing inherent in that check), and no subprocess call is added.
For `default` and `gpu` the function never raises a `ValueError`. -/
theorem start_worker_unknown_type_value_error (w : World) (wt : String)
    (spawned : Option (Nat × Nat)) (hd : wt ≠ "default") (hg : wt ≠ "gpu")
    (habs : truthyPid (check_service w (worker_service_name wt) .none).2 = false) :
    (start_worker w wt spawned =
      ((check_service w (worker_service_name wt) .none).1,
       Except.error (PyErr.valueError ("unexpected worker type " ++ wt))) ∧
     (check_service w (worker_service_name wt) .none).1.calls = w.calls) ∧
    (∀ (v : World) (sp : Option (Nat × Nat)) (msg : String),
      (start_worker v "default" sp).2 ≠ Except.error (PyErr.valueError msg) ∧
      (start_worker v "gpu" sp).2 ≠ Except.error (PyErr.valueError msg)) := by
  constructor
  · have hbd : (wt == "default") = false := beq_eq_false_iff_ne.mpr hd
    have hbg : (wt == "gpu") = false := beq_eq_false_iff_ne.mpr hg
    unfold start_worker
    simp only [habs, hbd, hbg, Bool.false_eq_true, if_false]
    exact ⟨trivial, check_service_calls w (worker_service_name wt) .none⟩
  · intro v sp msg
    constructor
    · unfold start_worker
      by_cases ht : truthyPid (check_service v (worker_service_name "default") .none).2 = true
      · simp [ht]
      · simp only [ht, Bool.false_eq_true, if_false]
        cases sp with
        | none => simp
        | some pt =>
          obtain ⟨p, t⟩ := pt
          by_cases h10 : t < 10 <;> simp [h10]
    · unfold start_worker
      by_cases ht : truthyPid (check_service v (worker_service_name "gpu") .none).2 = true
      · simp [ht]
      · simp only [ht, Bool.false_eq_true, if_false]
        cases sp with
        | none => simp
        | some pt =>
          obtain ⟨p, t⟩ := pt
          by_cases h10 : t < 10 <;> simp [h10]

/-- Witness for C10's amended theorem: an unknown worker type on the empty
world. -/
theorem start_worker_unknown_type_value_error_witness :
    (("foo" : String) ≠ "default" ∧ ("foo" : String) ≠ "gpu" ∧
     truthyPid (check_service wEmpty (worker_service_name "foo") .none).2 = false) ∧
    ((start_worker wEmpty "foo" Option.none =
        ((check_service wEmpty (worker_service_name "foo") .none).1,
         Except.error (PyErr.valueError ("unexpected worker type " ++ "foo"))) ∧
      (check_service wEmpty (worker_service_name "foo") .none).1.calls = wEmpty.calls) ∧
     (∀ (v : World) (sp : Option (Nat × Nat)) (msg : String),
       (start_worker v "default" sp).2 ≠ Except.error (PyErr.valueError msg) ∧
       (start_worker v "gpu" sp).2 ≠ Except.error (PyErr.valueError msg))) :=
  ⟨⟨by decide, by decide, by decide⟩,
   start_worker_unknown_type_value_error wEmpty "foo" Option.none
     (by decide) (by decide) (by decide)⟩

/-! ### C9: the status report -/

theorem statusStep_trans {paths : List String} {a b c : World} {k1 k2 : Nat}
    (s : StatusStep paths a b k1) (t : StatusStep paths b c k2) :
    StatusStep paths a c (k1 + k2) := by
  refine ⟨?_, ?_, ?_, ?_, ?_, ?_, ?_⟩
  · rw [t.procs_eq, s.procs_eq]
  · rw [t.calls_eq, s.calls_eq]
  · rw [t.signals_eq, s.signals_eq]
  · rw [t.hostname_eq, s.hostname_eq]
  · rw [t.uid_eq, s.uid_eq]
  · intro q hq
    rw [t.files_frame q hq, s.files_frame q hq]
  · obtain ⟨d1, h1, hk1⟩ := s.prints_shape
    obtain ⟨d2, h2, hk2⟩ := t.prints_shape
    refine ⟨d1 ++ d2, by rw [h2, h1, List.append_assoc], ?_⟩
    unfold nonStale at *
    rw [List.filter_append, List.length_append, hk1, hk2]

theorem option_some_or {α : Type} (a : α) (o : Option α) :
    (Option.some a).or o = Option.some a := rfl

theorem down_line_ne_stale (name : String) : name ++ " down" ≠ STALE_MSG := by
  intro h
  have hd := congrArg String.data h
  rw [String.data_append] at hd
  have hl := congrArg List.getLast? hd
  rw [List.getLast?_append] at hl
  have h1 : ((" down" : String).data.getLast?) = Option.some 'n' := by decide
  have h2 : ((STALE_MSG : String).data.getLast?) = Option.some 'e' := by decide
  rw [h1, h2, option_some_or] at hl
  exact absurd hl (by decide)

theorem up_line_ne_stale (name : String) (p : Nat) :
    name ++ " up (pid=" ++ toString p ++ ")" ≠ STALE_MSG := by
  intro h
  have hd := congrArg String.data h
  simp only [String.data_append] at hd
  have hl := congrArg List.getLast? hd
  rw [List.getLast?_append] at hl
  have h1 : (((")") : String).data.getLast?) = Option.some ')' := by decide
  have h2 : ((STALE_MSG : String).data.getLast?) = Option.some 'e' := by decide
  rw [h1, h2, option_some_or] at hl
  exact absurd hl (by decide)

theorem report_line_ne_stale (n : String) (p : Option Nat) :
    report_line n p ≠ STALE_MSG := by
  unfold report_line
  cases p with
  | none => exact down_line_ne_stale n
  | some q =>
    dsimp only
    by_cases hq : (q != 0) = true
    · rw [if_pos hq]
      exact up_line_ne_stale n q
    · rw [if_neg hq]
      exact down_line_ne_stale n

theorem nonStale_report_line (n : String) (p : Option Nat) :
    nonStale [report_line n p] = [report_line n p] := by
  unfold nonStale
  rw [List.filter_cons]
  rw [if_pos (bne_iff_ne.mpr (report_line_ne_stale n p))]
  rfl

theorem check_service_step (paths : List String) (w : World) (n : String) (h : HostArg)
    (hp : pid_file_location w.hostname n h ∈ paths) :
    StatusStep paths w (check_service w n h).1 0 := by
  refine ⟨check_service_procs w n h, check_service_calls w n h, check_service_signals w n h,
    check_service_hostname w n h, check_service_uid w n h, ?_, ?_⟩
  · intro q hq
    exact check_service_files_other w n h q (fun he => hq (he ▸ hp))
  · obtain ⟨δ, h1, h2⟩ := check_service_prints_shape w n h
    exact ⟨δ, h1, by rw [h2]; rfl⟩

theorem check_api_server_world_cases (w : World) :
    (check_api_server w).1 = (check_service w "api-server" .none).1 ∨
    ∃ p, (check_api_server w).1 =
      {(check_service w "api-server" .none).1 with
        files := setFile (check_service w "api-server" .none).1.files
          (pid_file_location (check_service w "api-server" .none).1.hostname "api-server"
            .none) p} := by
  unfold check_api_server
  by_cases ht : truthyPid (check_service w "api-server" HostArg.none).2 = true
  · simp only [ht, if_true]
    exact Or.inl trivial
  · simp only [ht, Bool.false_eq_true, if_false]
    cases hf : find_api_server (check_service w "api-server" HostArg.none).1 with
    | none =>
      simp only [hf]
      exact Or.inl trivial
    | some p =>
      simp only [hf]
      by_cases hp : (p != 0) = true
      · rw [if_pos hp]
        exact Or.inr ⟨p, rfl⟩
      · rw [if_neg hp]
        exact Or.inl rfl

theorem check_api_server_step (paths : List String) (w : World)
    (hp : pid_file_location w.hostname "api-server" HostArg.none ∈ paths) :
    StatusStep paths w (check_api_server w).1 0 := by
  have base := check_service_step paths w "api-server" HostArg.none hp
  rcases check_api_server_world_cases w with hc | ⟨p, hc⟩
  · rw [hc]
    exact base
  · rw [hc]
    refine ⟨base.procs_eq, base.calls_eq, base.signals_eq, base.hostname_eq, base.uid_eq,
      ?_, ?_⟩
    · intro q hq
      dsimp only
      have hqne : q ≠ pid_file_location
          (check_service w "api-server" HostArg.none).1.hostname "api-server" HostArg.none := by
        rw [base.hostname_eq]
        intro he
        exact hq (he ▸ hp)
      rw [lookupFile_setFile_ne _ _ _ _ hqne]
      exact base.files_frame q hq
    · obtain ⟨δ, h1, h2⟩ := base.prints_shape
      exact ⟨δ, h1, h2⟩

theorem report_status_step (paths : List String) (v : World) (lbl : String) (p : Option Nat) :
    StatusStep paths v (report_status v lbl p) 1 := by
  refine ⟨rfl, rfl, rfl, rfl, rfl, fun q _ => rfl, ?_⟩
  refine ⟨[report_line lbl p], rfl, ?_⟩
  rw [nonStale_report_line]
  rfl

theorem status_block_step (paths : List String) (v : World) (lbl : String)
    (r : World × Option Nat) (hr : StatusStep paths v r.1 0) :
    StatusStep paths v (status_block lbl r) 1 :=
  statusStep_trans hr (report_status_step paths r.1 lbl r.2)

theorem check_status_statusStep (w : World) :
    StatusStep (status_record_paths w) w (check_status w) 6 := by
  have m1 : pid_file_location w.hostname "api-server" HostArg.none ∈ status_record_paths w := by
    simp [status_record_paths]
  have m2w : pid_file_location w.hostname "scheduler" HostArg.none ∈ status_record_paths w := by
    simp [status_record_paths]
  have m3w : pid_file_location w.hostname "triggerer" HostArg.none ∈ status_record_paths w := by
    simp [status_record_paths]
  have m4w : pid_file_location w.hostname "dag-processor" HostArg.none ∈
      status_record_paths w := by
    simp [status_record_paths]
  have m5w : pid_file_location w.hostname "worker" (HostArg.bool true) ∈
      status_record_paths w := by
    simp [status_record_paths]
  have m6w : pid_file_location w.hostname "worker-gpu" (HostArg.bool true) ∈
      status_record_paths w := by
    simp [status_record_paths]
  simp only [check_status]
  have s1 := status_block_step (status_record_paths w) w "api-server" (check_api_server w)
    (check_api_server_step (status_record_paths w) w m1)
  generalize hW1 : status_block "api-server" (check_api_server w) = W1 at s1 ⊢
  have hh1 : W1.hostname = w.hostname := s1.hostname_eq
  have s2 := status_block_step (status_record_paths w) W1 "scheduler"
    (check_service W1 "scheduler" HostArg.none)
    (check_service_step (status_record_paths w) W1 "scheduler" HostArg.none
      (by rw [hh1]; exact m2w))
  have t2 := statusStep_trans s1 s2
  generalize hW2 : status_block "scheduler" (check_service W1 "scheduler" HostArg.none) = W2
    at t2 ⊢
  have hh2 : W2.hostname = w.hostname := t2.hostname_eq
  have s3 := status_block_step (status_record_paths w) W2 "triggerer"
    (check_service W2 "triggerer" HostArg.none)
    (check_service_step (status_record_paths w) W2 "triggerer" HostArg.none
      (by rw [hh2]; exact m3w))
  have t3 := statusStep_trans t2 s3
  generalize hW3 : status_block "triggerer" (check_service W2 "triggerer" HostArg.none) = W3
    at t3 ⊢
  have hh3 : W3.hostname = w.hostname := t3.hostname_eq
  have s4 := status_block_step (status_record_paths w) W3 "dag-processor"
    (check_service W3 "dag-processor" HostArg.none)
    (check_service_step (status_record_paths w) W3 "dag-processor" HostArg.none
      (by rw [hh3]; exact m4w))
  have t4 := statusStep_trans t3 s4
  generalize hW4 : status_block "dag-processor" (check_service W3 "dag-processor" HostArg.none)
    = W4 at t4 ⊢
  have hh4 : W4.hostname = w.hostname := t4.hostname_eq
  have s5 := status_block_step (status_record_paths w) W4 ("worker@" ++ w.hostname)
    (check_service W4 "worker" (HostArg.bool true))
    (check_service_step (status_record_paths w) W4 "worker" (HostArg.bool true)
      (by rw [hh4]; exact m5w))
  have t5 := statusStep_trans t4 s5
  generalize hW5 : status_block ("worker@" ++ w.hostname)
    (check_service W4 "worker" (HostArg.bool true)) = W5 at t5 ⊢
  have hh5 : W5.hostname = w.hostname := t5.hostname_eq
  have s6 := status_block_step (status_record_paths w) W5 ("worker-gpu@" ++ w.hostname)
    (check_service W5 "worker-gpu" (HostArg.bool true))
    (check_service_step (status_record_paths w) W5 "worker-gpu" (HostArg.bool true)
      (by rw [hh5]; exact m6w))
  exact statusStep_trans t5 s6

/-- Counterexample for C9's "never creates a record".  On `wScanOnly` there
is no api-server record but a running api-server process 42; the `status`
command's `check_api_server` falls back to the process scan and ADOPTS the
found pid into the Identity Store, creating the api-server record file —
a mutation beyond the staleness healing of `check`. -/
theorem check_status_creates_record_counterexample :
    wScanOnly.files = [] ∧
    (check_status wScanOnly).files = [("services-logs/api-server.pid", 42)] ∧
    (check_status wScanOnly).files ≠ wScanOnly.files ∧
    (check_status wScanOnly).prints =
      ["api-server up (pid=42)", "scheduler down", "triggerer down",
       "dag-processor down", "worker@h down", "worker-gpu@h down"] :=
  ⟨by decide, by decide, by decide, by decide⟩

/-- C9 (amended): the status command checks every known identity (the four
host-singletons and the two host-qualified workers, the latter labeled with
the host) and prints exactly one up/down line per identity besides the
stale-cleanup notices; it never starts a process, signals a process, or
invokes a subcommand (process table, subprocess log and signal log are
untouched), and the only record files it can touch are the six identities'
own — `check`'s staleness healing plus the api-server adoption write. -/
theorem check_status_read_only_amended (w : World) :
    (check_status w).procs = w.procs ∧
    (check_status w).calls = w.calls ∧
    (check_status w).signals = w.signals ∧
    (∃ δ, (check_status w).prints = w.prints ++ δ ∧ (nonStale δ).length = 6) ∧
    (∀ q, q ∉ status_record_paths w →
      lookupFile (check_status w).files q = lookupFile w.files q) := by
  have s := check_status_statusStep w
  exact ⟨s.procs_eq, s.calls_eq, s.signals_eq, s.prints_shape, s.files_frame⟩

/-- Witness for C9's amended theorem: a path outside the six record paths
is untouched on `wScanOnly`. -/
theorem check_status_read_only_amended_witness :
    ("services-logs/other.pid" ∉ status_record_paths wScanOnly) ∧
    lookupFile (check_status wScanOnly).files "services-logs/other.pid" =
      lookupFile wScanOnly.files "services-logs/other.pid" :=
  ⟨by decide,
   (check_status_read_only_amended wScanOnly).2.2.2.2 "services-logs/other.pid" (by decide)⟩
